import Mathlib

/-!
Shallow embedding of the multi-tenant schema-management core of this
repository: the tables declared in `supabase/schema.sql` (admin_users,
tenants, tenant_products, user_schema_access, admin_audit_log) and the
SQL stored procedures (`is_admin`, `is_super_admin`, `has_schema_access`,
`get_accessible_schemas`, `create_tenant_schema`, `suspend_tenant`,
`activate_tenant`, `delete_tenant_schema`, `grant_schema_access`,
`revoke_schema_access`, `promote_to_admin`, `revoke_admin`) together with
the `delete_tenant_schema` variant of the unnamed SQL file (part_014).

Modelling conventions:
- UUIDs are `Nat`; `auth.uid()` is passed explicitly as `uid`.
- `NOW()` / timestamps are `Nat`; `NOW()` is passed explicitly as `now`.
- SQL TEXT columns are `String` (roles, levels and statuses stay strings,
  as in the source, which constrains them with CHECK constraints).
- A table is a `List` of rows; `jsonb_build_object` payloads are
  association lists `List (String × String)`.
- `RAISE EXCEPTION` is `Except.error`; the error constructor classifies
  each raise site by the taxonomy of spec §7 (permission / validation /
  conflict / notFound) while keeping the source's message. Because a
  raised exception aborts the SQL transaction, an `.error` result models
  "no mutation is visible": only `.ok` carries a database state.
- `gen_random_uuid()` is modelled by a fresh-id counter `next_id`.
- Physical schemas (`information_schema.schemata`, `CREATE SCHEMA`,
  `DROP SCHEMA`) are the string list `schemata`.
-/

namespace TenantCore

/-- Row of `public.admin_users` (schema.sql §1). -/
structure AdminUser where
  id : Nat
  email : String
  role : String
  is_active : Bool
  deriving Repr, DecidableEq

/-- Row of `public.tenants` (schema.sql §2). -/
structure Tenant where
  id : Nat
  schema_name : String
  display_name : String
  status : String
  created_by : Nat
  deriving Repr, DecidableEq

/-- Row of `public.user_schema_access` (schema.sql §4). -/
structure SchemaAccess where
  id : Nat
  user_id : Nat
  tenant_schema : String
  access_level : String
  granted_by : Nat
  granted_at : Nat
  expires_at : Option Nat
  deriving Repr, DecidableEq

/-- Row of `public.admin_audit_log` (schema.sql §5). `resource_id` is
nullable in the table; `details` models the jsonb payload as an
association list. -/
structure AuditEntry where
  user_id : Nat
  action : String
  resource_type : String
  resource_id : Option String
  details : List (String × String)
  deriving Repr, DecidableEq

/-- Row of `public.tenant_products` (schema.sql §3): tenant schema,
product name, enabled flag. -/
structure TenantProduct where
  tenant_schema : String
  product_name : String
  enabled : Bool
  deriving Repr, DecidableEq

/-- The database state the procedures read and write. `auth_users` models
`auth.users` as (id, email) pairs; `schemata` models the physical schemas
visible in `information_schema.schemata`. -/
structure Db where
  auth_users : List (Nat × String)
  admin_users : List AdminUser
  tenants : List Tenant
  tenant_products : List TenantProduct
  user_schema_access : List SchemaAccess
  admin_audit_log : List AuditEntry
  schemata : List String
  next_id : Nat
  deriving Repr, DecidableEq

/-- Error kinds, following the taxonomy of spec §7; each constructor
carries the source's exception message. -/
inductive DbError where
  | permission : String → DbError
  | validation : String → DbError
  | conflict : String → DbError
  | notFound : String → DbError
  deriving Repr, DecidableEq

/-- `public.is_admin()` (03_helper_functions.sql lines 9-20): an active
admin_users row exists for `uid`, any role. -/
def is_admin (db : Db) (uid : Nat) : Bool :=
  db.admin_users.any fun a => a.id == uid && a.is_active

/-- `public.is_super_admin()` (03_helper_functions.sql lines 23-35): an
active admin_users row with role super_admin exists for `uid`. -/
def is_super_admin (db : Db) (uid : Nat) : Bool :=
  db.admin_users.any fun a => a.id == uid && a.role == "super_admin" && a.is_active

/-- The level test embedded in `has_schema_access` (03_helper_functions.sql
lines 49-53): required read is met by any row; required write needs
access_level write or admin; required admin needs access_level admin. -/
def level_satisfies (required_level access_level : String) : Bool :=
  required_level == "read"
  || (required_level == "write" && (access_level == "write" || access_level == "admin"))
  || (required_level == "admin" && access_level == "admin")

/-- The expiry test `usa.expires_at IS NULL OR usa.expires_at > NOW()`
(03_helper_functions.sql line 48). -/
def grant_unexpired (now : Nat) (g : SchemaAccess) : Bool :=
  match g.expires_at with
  | none => true
  | some t => now < t

/-- `public.has_schema_access(schema_name, required_level)`
(03_helper_functions.sql lines 38-56): an unexpired matching grant row
passing the level test exists, or the caller is an admin. Note the body
never reads `tenants.status`. -/
def has_schema_access (db : Db) (uid now : Nat) (schema_name required_level : String) : Bool :=
  (db.user_schema_access.any fun usa =>
    usa.user_id == uid && usa.tenant_schema == schema_name
    && grant_unexpired now usa
    && level_satisfies required_level usa.access_level)
  || is_admin db uid

/-- `public.get_accessible_schemas()` (03_helper_functions.sql lines
59-78): admins get every tenant schema at level admin; non-admins get
their unexpired grant rows. The SQL UNION's two branches are guarded by
`is_admin` / `NOT is_admin`, so exactly one contributes. -/
def get_accessible_schemas (db : Db) (uid now : Nat) : List (String × String) :=
  if is_admin db uid then
    db.tenants.map fun t => (t.schema_name, "admin")
  else
    (db.user_schema_access.filter fun usa =>
      usa.user_id == uid && grant_unexpired now usa).map
      fun usa => (usa.tenant_schema, usa.access_level)

/-- `get(schemaName)`: lookup of a tenants row by schema name. -/
def get_tenant (db : Db) (schema_name : String) : Option Tenant :=
  db.tenants.find? fun t => t.schema_name == schema_name

/-- The regex `^[a-z][a-z0-9_]*$` of `create_tenant_schema` (schema.sql
line 349): ASCII lowercase letter, then lowercase letters, digits or
underscores. -/
def valid_ident (s : String) : Bool :=
  match s.data with
  | [] => false
  | c :: rest => c.isLower && rest.all fun d => d.isLower || d.isDigit || d == '_'

/-- The reserved-name list of `create_tenant_schema` (schema.sql lines
359-363). -/
def reserved_schema_names : List String :=
  ["public", "auth", "storage", "graphql", "realtime", "supabase",
   "extensions", "vault", "pgsodium"]

/-- The full reserved check of schema.sql lines 359-363: listed name, or
`pg_%` / `supabase_%` LIKE patterns. -/
def is_reserved_schema_name (s : String) : Bool :=
  reserved_schema_names.contains s || s.startsWith "pg_" || s.startsWith "supabase_"

/-- `public.create_tenant_schema(schema_name, products, display_name)`
(schema.sql lines 338-442). Checks in source order: admin, identifier
regex, length 3-63, reserved names, schema already exists; then creates
the physical schema, inserts the tenants row (status defaults to active),
inserts product rows, and logs the CREATE audit entry. Returns the new
tenant id. -/
def create_tenant_schema (db : Db) (uid : Nat) (schema_name : String)
    (products : List String) (display_name : Option String) :
    Except DbError (Db × Nat) :=
  if !(is_admin db uid) then
    .error (.permission "Access denied: only administrators can create tenant schemas")
  else if !(valid_ident schema_name) then
    .error (.validation "Invalid schema name: must start with lowercase letter and contain only lowercase letters, numbers, and underscores")
  else if schema_name.length < 3 || 63 < schema_name.length then
    .error (.validation "Schema name must be between 3 and 63 characters")
  else if is_reserved_schema_name schema_name then
    .error (.validation "Schema name is reserved and cannot be used")
  else if db.schemata.contains schema_name then
    .error (.conflict "Schema already exists")
  else
    let new_tenant_id := db.next_id
    let t : Tenant :=
      ⟨new_tenant_id, schema_name, display_name.getD schema_name, "active", uid⟩
    let prods := products.map fun p => TenantProduct.mk schema_name p true
    let entry : AuditEntry :=
      ⟨uid, "CREATE", "tenant_schema", some schema_name,
        [("products", String.intercalate "," products),
         ("display_name", display_name.getD "")]⟩
    .ok ({ db with
            schemata := db.schemata ++ [schema_name],
            tenants := db.tenants ++ [t],
            tenant_products := db.tenant_products ++ prods,
            admin_audit_log := db.admin_audit_log ++ [entry],
            next_id := db.next_id + 1 },
         new_tenant_id)

/-- `public.suspend_tenant(schema_name)` (schema.sql lines 450-486).
Checks: admin, tenant exists, not already suspended; then (after the
external REVOKE DDL, not part of this state) sets status to suspended and
logs SUSPEND. -/
def suspend_tenant (db : Db) (uid : Nat) (schema_name : String) :
    Except DbError Db :=
  if !(is_admin db uid) then
    .error (.permission "Access denied: only administrators can suspend tenants")
  else if !(db.tenants.any fun t => t.schema_name == schema_name) then
    .error (.notFound "Tenant not found")
  else if db.tenants.any fun t => t.schema_name == schema_name && t.status == "suspended" then
    .error (.conflict "Tenant is already suspended")
  else
    .ok { db with
          tenants := db.tenants.map fun t =>
            if t.schema_name == schema_name then { t with status := "suspended" } else t,
          admin_audit_log := db.admin_audit_log ++
            [⟨uid, "SUSPEND", "tenant_schema", some schema_name, []⟩] }

/-- `public.activate_tenant(schema_name)` (schema.sql lines 494-530).
Checks: admin, tenant exists, not already active; then (after the
external GRANT DDL) sets status to active and logs ACTIVATE. -/
def activate_tenant (db : Db) (uid : Nat) (schema_name : String) :
    Except DbError Db :=
  if !(is_admin db uid) then
    .error (.permission "Access denied: only administrators can activate tenants")
  else if !(db.tenants.any fun t => t.schema_name == schema_name) then
    .error (.notFound "Tenant not found")
  else if db.tenants.any fun t => t.schema_name == schema_name && t.status == "active" then
    .error (.conflict "Tenant is already active")
  else
    .ok { db with
          tenants := db.tenants.map fun t =>
            if t.schema_name == schema_name then { t with status := "active" } else t,
          admin_audit_log := db.admin_audit_log ++
            [⟨uid, "ACTIVATE", "tenant_schema", some schema_name, []⟩] }

/-- The mutation steps `delete_tenant_schema` performs, in order, so the
source's statement order (audit insert, then grant removal, then schema
drop, then tenant removal) is visible in the result. -/
inductive DeleteStep where
  | auditInsert : AuditEntry → DeleteStep
  | removeGrants : String → DeleteStep
  | dropSchema : String → DeleteStep
  | removeTenant : String → DeleteStep
  deriving Repr, DecidableEq

/-- `public.delete_tenant_schema(schema_name)` (schema.sql lines
538-569). Checks: super admin, tenant exists; then logs DELETE BEFORE
deletion, deletes the user_schema_access rows for the schema, drops the
physical schema, and deletes the tenants row. The returned trace records
the four mutations in source order. -/
def delete_tenant_schema (db : Db) (uid : Nat) (schema_name : String) :
    Except DbError (Db × List DeleteStep) :=
  if !(is_super_admin db uid) then
    .error (.permission "Access denied: only super administrators can delete tenant schemas")
  else if !(db.tenants.any fun t => t.schema_name == schema_name) then
    .error (.notFound "Tenant not found")
  else
    let entry : AuditEntry := ⟨uid, "DELETE", "tenant_schema", some schema_name, []⟩
    let db1 := { db with admin_audit_log := db.admin_audit_log ++ [entry] }
    let db2 := { db1 with
      user_schema_access := db1.user_schema_access.filter fun g =>
        !(g.tenant_schema == schema_name) }
    let db3 := { db2 with schemata := db2.schemata.filter fun s => !(s == schema_name) }
    let db4 := { db3 with
      tenants := db3.tenants.filter fun t => !(t.schema_name == schema_name) }
    .ok (db4,
      [.auditInsert entry, .removeGrants schema_name,
       .dropSchema schema_name, .removeTenant schema_name])

/-- `public.grant_schema_access(target_user_id, target_schema,
access_level, expires_at)` (schema.sql lines 577-629). Checks: admin,
level in {read, write, admin}, tenant exists, target user exists; then
upserts the user_schema_access row keyed by (user_id, tenant_schema) and
logs GRANT_ACCESS with details {target_user, schema, level}. Returns the
access row id. -/
def grant_schema_access (db : Db) (uid now : Nat) (target_user_id : Nat)
    (target_schema access_level : String) (expires_at : Option Nat) :
    Except DbError (Db × Nat) :=
  if !(is_admin db uid) then
    .error (.permission "Access denied: only administrators can grant schema access")
  else if !(["read", "write", "admin"].contains access_level) then
    .error (.validation "Invalid access level. Must be: read, write, or admin")
  else if !(db.tenants.any fun t => t.schema_name == target_schema) then
    .error (.notFound "Tenant schema not found")
  else if !(db.auth_users.any fun u => u.1 == target_user_id) then
    .error (.notFound "User not found")
  else
    match db.user_schema_access.find? fun g =>
        g.user_id == target_user_id && g.tenant_schema == target_schema with
    | some g0 =>
      let entry : AuditEntry :=
        ⟨uid, "GRANT_ACCESS", "user_schema_access", some (toString g0.id),
          [("target_user", toString target_user_id), ("schema", target_schema),
           ("level", access_level)]⟩
      .ok ({ db with
              user_schema_access := db.user_schema_access.map fun g =>
                if g.user_id == target_user_id && g.tenant_schema == target_schema then
                  { g with access_level := access_level, granted_by := uid,
                           granted_at := now, expires_at := expires_at }
                else g,
              admin_audit_log := db.admin_audit_log ++ [entry] },
            g0.id)
    | none =>
      let g : SchemaAccess :=
        ⟨db.next_id, target_user_id, target_schema, access_level, uid, now, expires_at⟩
      let entry : AuditEntry :=
        ⟨uid, "GRANT_ACCESS", "user_schema_access", some (toString db.next_id),
          [("target_user", toString target_user_id), ("schema", target_schema),
           ("level", access_level)]⟩
      .ok ({ db with
              user_schema_access := db.user_schema_access ++ [g],
              admin_audit_log := db.admin_audit_log ++ [entry],
              next_id := db.next_id + 1 },
            db.next_id)

/-- `public.revoke_schema_access(target_user_id, target_schema)`
(schema.sql lines 637-661). Checks: admin; then deletes the matching
access rows unconditionally (no error when absent) and logs REVOKE_ACCESS
with details {target_user, schema} and no resource_id. -/
def revoke_schema_access (db : Db) (uid : Nat) (target_user_id : Nat)
    (target_schema : String) : Except DbError Db :=
  if !(is_admin db uid) then
    .error (.permission "Access denied: only administrators can revoke schema access")
  else
    .ok { db with
          user_schema_access := db.user_schema_access.filter fun g =>
            !(g.user_id == target_user_id && g.tenant_schema == target_schema),
          admin_audit_log := db.admin_audit_log ++
            [⟨uid, "REVOKE_ACCESS", "user_schema_access", none,
              [("target_user", toString target_user_id), ("schema", target_schema)]⟩] }

/-- `public.promote_to_admin(target_user_id, admin_role)` (schema.sql
lines 808-843). Checks: super admin, role in {admin, viewer}; then
`INSERT ... SELECT ... FROM auth.users ... ON CONFLICT (id) DO UPDATE`:
when the target exists in auth.users, upserts the admin_users row
(setting role and is_active := true); when it does not, the SELECT is
empty and nothing is inserted. Logs PROMOTE_ADMIN either way. -/
def promote_to_admin (db : Db) (uid : Nat) (target_user_id : Nat)
    (admin_role : String) : Except DbError Db :=
  if !(is_super_admin db uid) then
    .error (.permission "Access denied: only super administrators can promote users to admin")
  else if !(["admin", "viewer"].contains admin_role) then
    .error (.validation "Invalid role. Must be: admin or viewer")
  else
    let admins :=
      match db.auth_users.find? fun u => u.1 == target_user_id with
      | none => db.admin_users
      | some u =>
        if db.admin_users.any fun a => a.id == target_user_id then
          db.admin_users.map fun a =>
            if a.id == target_user_id then
              { a with role := admin_role, is_active := true }
            else a
        else
          db.admin_users ++ [⟨target_user_id, u.2, admin_role, true⟩]
    .ok { db with
          admin_users := admins,
          admin_audit_log := db.admin_audit_log ++
            [⟨uid, "PROMOTE_ADMIN", "admin_users", some (toString target_user_id),
              [("role", admin_role)]⟩] }

/-- `public.revoke_admin(target_user_id)` (schema.sql lines 851-877).
Checks: super admin, then the self-protection check `target_user_id =
auth.uid()`; then deactivates the admin_users row (is_active := false)
and logs REVOKE_ADMIN. -/
def revoke_admin (db : Db) (uid : Nat) (target_user_id : Nat) :
    Except DbError Db :=
  if !(is_super_admin db uid) then
    .error (.permission "Access denied: only super administrators can revoke admin access")
  else if target_user_id == uid then
    .error (.permission "Cannot revoke your own admin access")
  else
    .ok { db with
          admin_users := db.admin_users.map fun a =>
            if a.id == target_user_id then { a with is_active := false } else a,
          admin_audit_log := db.admin_audit_log ++
            [⟨uid, "REVOKE_ADMIN", "admin_users", some (toString target_user_id), []⟩] }

/-- The protected-schema list of the part_014 `delete_tenant_schema`
variant (part_014 lines 347). -/
def protected_schemas : List String :=
  ["public", "auth", "storage", "graphql", "realtime", "supabase_functions",
   "extensions"]

/-- `public.delete_tenant_schema(schema_name)` as defined in the unnamed
SQL file part_014 (lines 341-379). Checks in source order: super admin,
protected-schema list, tenant exists; then logs DELETE BEFORE deletion,
deletes the schema's access rows, drops the physical schema, and deletes
the tenants row. -/
def delete_tenant_schema_p14 (db : Db) (uid : Nat) (schema_name : String) :
    Except DbError Db :=
  if !(is_super_admin db uid) then
    .error (.permission "Access denied: only super administrators can delete schemas")
  else if protected_schemas.contains schema_name then
    .error (.validation "Cannot delete protected system schema. This schema is required for the application to function.")
  else if !(db.tenants.any fun t => t.schema_name == schema_name) then
    .error (.notFound "Schema not found")
  else
    .ok { db with
          admin_audit_log := db.admin_audit_log ++
            [⟨uid, "DELETE", "schema", some schema_name, []⟩],
          user_schema_access := db.user_schema_access.filter fun g =>
            !(g.tenant_schema == schema_name),
          schemata := db.schemata.filter fun s => !(s == schema_name),
          tenants := db.tenants.filter fun t => !(t.schema_name == schema_name) }

/-- The dominance ordering of spec §4.2 ("admin > write > read"), used to
state claim C2's characterisation: rank of each level. -/
def level_rank (level : String) : Nat :=
  if level == "admin" then 2 else if level == "write" then 1 else 0

/-! ### Concrete states used by counterexamples and witnesses -/

/-- A small concrete database: principal 7 is an active admin, principal
8 an active super_admin, principal 9 a plain user holding a write grant
on tenant `acme`, and tenant `acme` is suspended. -/
def exDb : Db :=
  { auth_users := [(7, "a@x.com"), (8, "s@x.com"), (9, "u@x.com")],
    admin_users := [⟨7, "a@x.com", "admin", true⟩, ⟨8, "s@x.com", "super_admin", true⟩],
    tenants := [⟨1, "acme", "Acme", "suspended", 7⟩],
    tenant_products := [],
    user_schema_access := [⟨2, 9, "acme", "write", 7, 0, none⟩],
    admin_audit_log := [],
    schemata := ["acme"],
    next_id := 3 }

/-! ### C1 -/

/-- C1, counterexample. The claim says every access decision for a
suspended tenant is Deny(SUSPENDED). In `exDb` the only tenant, `acme`,
is suspended, principal 7 is an active admin, and
`has_schema_access`, the code's access decision, still answers `true`
(Allow) for `acme`: the SQL body of `has_schema_access`
(03_helper_functions.sql lines 38-56) never reads `tenants.status`, so
suspension does not produce a denial there. -/
theorem suspended_tenant_access_not_denied :
    (exDb.tenants.map fun t => (t.schema_name, t.status)) = [("acme", "suspended")]
    ∧ is_admin exDb 7 = true
    ∧ has_schema_access exDb 7 0 "acme" "read" = true := by
  exact ⟨by decide, by decide, by decide⟩

/-- C1, amended. `has_schema_access` does not consult the tenants table
at all: its result is unchanged under any replacement of the tenant
rows (in particular of their statuses), and an active admin is always
granted access, suspended tenant or not. (In the repository, suspension
is enforced outside this function, by the REVOKE DDL in
`suspend_tenant`.) -/
theorem has_schema_access_ignores_tenant_status (db : Db) (ts : List Tenant)
    (uid now : Nat) (s lvl : String) :
    has_schema_access { db with tenants := ts } uid now s lvl
      = has_schema_access db uid now s lvl
    ∧ (is_admin db uid = true → has_schema_access db uid now s lvl = true) := by
  constructor
  · rfl
  · intro h
    simp [has_schema_access, h]

/-- C1, witness for the amended theorem, at the concrete suspended-tenant
state `exDb` with the tenant list replaced by an empty one. -/
theorem has_schema_access_ignores_tenant_status_witness :
    has_schema_access { exDb with tenants := [] } 7 0 "acme" "read"
      = has_schema_access exDb 7 0 "acme" "read"
    ∧ (is_admin exDb 7 = true → has_schema_access exDb 7 0 "acme" "read" = true) :=
  has_schema_access_ignores_tenant_status exDb [] 7 0 "acme" "read"

/-! ### C2 -/

/-- The level test of the SQL coincides, on the three legal levels, with
the dominance ordering admin > write > read of spec §4.2. -/
theorem level_satisfies_iff_rank (lvl al : String)
    (hl : lvl = "read" ∨ lvl = "write" ∨ lvl = "admin")
    (ha : al = "read" ∨ al = "write" ∨ al = "admin") :
    level_satisfies lvl al = true ↔ level_rank lvl ≤ level_rank al := by
  rcases hl with h | h | h <;> rcases ha with h2 | h2 | h2 <;>
    subst h <;> subst h2 <;> decide

/-- C2. For a legal required level and a grants table whose stored levels
are legal (the CHECK constraint of `user_schema_access`),
`has_schema_access` is true iff the caller is an admin or an unexpired
grant for (caller, schema) exists whose level dominates the required
level under admin > write > read; and the level test itself says a write
grant satisfies required read and write but not admin, while an admin
grant satisfies all three. -/
theorem has_schema_access_iff (db : Db) (uid now : Nat) (s lvl : String)
    (hl : lvl = "read" ∨ lvl = "write" ∨ lvl = "admin")
    (hg : ∀ g ∈ db.user_schema_access,
      g.access_level = "read" ∨ g.access_level = "write" ∨ g.access_level = "admin") :
    (has_schema_access db uid now s lvl = true ↔
      (is_admin db uid = true ∨
        ∃ g ∈ db.user_schema_access, g.user_id = uid ∧ g.tenant_schema = s ∧
          grant_unexpired now g = true ∧ level_rank lvl ≤ level_rank g.access_level))
    ∧ level_satisfies "read" "write" = true
    ∧ level_satisfies "write" "write" = true
    ∧ level_satisfies "admin" "write" = false
    ∧ level_satisfies "read" "admin" = true
    ∧ level_satisfies "write" "admin" = true
    ∧ level_satisfies "admin" "admin" = true := by
  refine ⟨?_, by decide, by decide, by decide, by decide, by decide, by decide⟩
  simp only [has_schema_access, Bool.or_eq_true, List.any_eq_true, Bool.and_eq_true,
    beq_iff_eq]
  constructor
  · rintro (⟨g, hmem, ⟨⟨hu, hs⟩, hun⟩, hsat⟩ | hadm)
    · exact Or.inr ⟨g, hmem, hu, hs, hun,
        (level_satisfies_iff_rank lvl g.access_level hl (hg g hmem)).mp hsat⟩
    · exact Or.inl hadm
  · rintro (hadm | ⟨g, hmem, hu, hs, hun, hrank⟩)
    · exact Or.inr hadm
    · exact Or.inl ⟨g, hmem, ⟨⟨hu, hs⟩, hun⟩,
        (level_satisfies_iff_rank lvl g.access_level hl (hg g hmem)).mpr hrank⟩

/-- C2, witness: in `exDb` the levels are legal and admin principal 7 is
granted admin-level access to `acme` through the admin arm of the iff. -/
theorem has_schema_access_iff_witness :
    has_schema_access exDb 7 0 "acme" "admin" = true :=
  (has_schema_access_iff exDb 7 0 "acme" "admin" (by decide) (by decide)).1.mpr
    (Or.inl (by decide))

/-! ### C3 -/

/-- C3. For an admin caller, `create_tenant_schema` fails with a
validation error on every schema name that violates the identifier
regex, has length outside 3-63, is one of the spec's reserved names
(public, auth, storage, graphql, realtime, supabase — the code's
reserved list is a superset), or carries a reserved pg_ / supabase_
beginning. The result being `.error` means the transaction aborts: no
tenants row, no product rows and no audit entry are produced (only `.ok`
carries a new state). -/
theorem create_tenant_schema_rejects_bad_names (db : Db) (uid : Nat)
    (s : String) (ps : List String) (dn : Option String)
    (hadmin : is_admin db uid = true)
    (hbad : valid_ident s = false ∨ s.length < 3 ∨ 63 < s.length
      ∨ s ∈ ["public", "auth", "storage", "graphql", "realtime", "supabase"]
      ∨ s.startsWith "pg_" = true ∨ s.startsWith "supabase_" = true) :
    ∃ msg, create_tenant_schema db uid s ps dn =
      Except.error (DbError.validation msg) := by
  unfold create_tenant_schema
  rw [hadmin]
  simp only [Bool.not_true, Bool.false_eq_true, if_false]
  by_cases hv : valid_ident s
  · rw [hv]
    simp only [Bool.not_true, Bool.false_eq_true, if_false]
    by_cases hlen : s.length < 3 ∨ 63 < s.length
    · have hb : (decide (s.length < 3) || decide (63 < s.length)) = true := by
        rcases hlen with h | h <;> simp [h]
      rw [hb]
      simp only [if_true]
      exact ⟨_, rfl⟩
    · have hb : (decide (s.length < 3) || decide (63 < s.length)) = false := by
        simp only [Bool.or_eq_false_iff, decide_eq_false_iff_not]
        exact ⟨fun h => hlen (Or.inl h), fun h => hlen (Or.inr h)⟩
      rw [hb]
      simp only [Bool.false_eq_true, if_false]
      have hres : is_reserved_schema_name s = true := by
        rcases hbad with h | h | h | h | h | h
        · rw [hv] at h; cases h
        · exact absurd (Or.inl h) hlen
        · exact absurd (Or.inr h) hlen
        · unfold is_reserved_schema_name reserved_schema_names
          fin_cases h <;> decide
        · unfold is_reserved_schema_name
          rw [h]
          simp
        · unfold is_reserved_schema_name
          rw [h]
          simp
      rw [hres]
      exact ⟨_, rfl⟩
  · rw [Bool.not_eq_true] at hv
    rw [hv]
    exact ⟨_, rfl⟩

/-- C3, witness: the reserved name `public` is rejected with a
validation error even for the admin caller 7. -/
theorem create_tenant_schema_rejects_bad_names_witness :
    ∃ msg, create_tenant_schema exDb 7 "public" [] none =
      Except.error (DbError.validation msg) :=
  create_tenant_schema_rejects_bad_names exDb 7 "public" [] none
    (by decide) (by decide)

/-! ### C4 -/

/-- C4. Whenever `delete_tenant_schema` succeeds: the caller is a
super_admin (strictly above the plain-admin bar of create/suspend); the
mutation trace is exactly audit insert first, then grant removal, then
schema drop, then tenant removal — the source's statement order; the
audit log of the new state is the old log with the single DELETE entry
appended; no access grant for the schema survives; and `get` of the
schema afterwards returns none. -/
theorem delete_tenant_schema_ok_spec (db : Db) (uid : Nat) (s : String)
    (db2 : Db) (tr : List DeleteStep)
    (h : delete_tenant_schema db uid s = Except.ok (db2, tr)) :
    is_super_admin db uid = true
    ∧ tr = [DeleteStep.auditInsert ⟨uid, "DELETE", "tenant_schema", some s, []⟩,
            DeleteStep.removeGrants s, DeleteStep.dropSchema s,
            DeleteStep.removeTenant s]
    ∧ db2.admin_audit_log = db.admin_audit_log ++
        [⟨uid, "DELETE", "tenant_schema", some s, []⟩]
    ∧ (∀ g ∈ db2.user_schema_access, g.tenant_schema ≠ s)
    ∧ get_tenant db2 s = none := by
  unfold delete_tenant_schema at h
  by_cases hsa : is_super_admin db uid
  · rw [hsa] at h
    simp only [Bool.not_true, Bool.false_eq_true, if_false] at h
    by_cases hex : db.tenants.any fun t => t.schema_name == s
    · rw [hex] at h
      simp only [Bool.not_true, Bool.false_eq_true, if_false, Except.ok.injEq,
        Prod.mk.injEq] at h
      obtain ⟨hdb2, htr⟩ := h
      subst hdb2
      refine ⟨hsa, htr.symm, rfl, ?_, ?_⟩
      · intro g hg
        have := List.of_mem_filter hg
        simpa using this
      · rw [get_tenant, List.find?_eq_none]
        intro t ht
        have := List.of_mem_filter ht
        simpa using this
    · rw [Bool.not_eq_true] at hex
      rw [hex] at h
      simp at h
  · rw [Bool.not_eq_true] at hsa
    rw [hsa] at h
    simp at h

/-- A name for the state `delete_tenant_schema` produces from `exDb` for
super_admin 8 deleting `acme`, used by the C4 witness. -/
def exDbDeleted : Db :=
  { exDb with
    tenants := [],
    user_schema_access := [],
    schemata := [],
    admin_audit_log := [⟨8, "DELETE", "tenant_schema", some "acme", []⟩] }

/-- C4, witness: super_admin 8 deletes `acme` in `exDb`; the hypothesis
is discharged by evaluating the procedure. -/
theorem delete_tenant_schema_ok_spec_witness :
    is_super_admin exDb 8 = true
    ∧ [DeleteStep.auditInsert ⟨8, "DELETE", "tenant_schema", some "acme", []⟩,
       DeleteStep.removeGrants "acme", DeleteStep.dropSchema "acme",
       DeleteStep.removeTenant "acme"]
      = [DeleteStep.auditInsert ⟨8, "DELETE", "tenant_schema", some "acme", []⟩,
         DeleteStep.removeGrants "acme", DeleteStep.dropSchema "acme",
         DeleteStep.removeTenant "acme"]
    ∧ exDbDeleted.admin_audit_log = exDb.admin_audit_log ++
        [⟨8, "DELETE", "tenant_schema", some "acme", []⟩]
    ∧ (∀ g ∈ exDbDeleted.user_schema_access, g.tenant_schema ≠ "acme")
    ∧ get_tenant exDbDeleted "acme" = none :=
  delete_tenant_schema_ok_spec exDb 8 "acme" exDbDeleted _ (by rfl)

/-! ### C5 -/

/-- C5. For an admin caller, against a tenants table whose statuses obey
the CHECK constraint (active or suspended): suspending an
already-suspended tenant fails with a conflict error, activating an
already-active tenant fails with a conflict error, and either transition
succeeds only when a tenant of that name exists in the opposite state.
An `.error` result models the aborted transaction, so the failing call
changes no status. -/
theorem set_status_not_idempotent (db : Db) (uid : Nat) (s : String)
    (hadmin : is_admin db uid = true)
    (hwf : ∀ t ∈ db.tenants, t.status = "active" ∨ t.status = "suspended") :
    ((db.tenants.any fun t => t.schema_name == s && t.status == "suspended") = true →
      ∃ m, suspend_tenant db uid s = Except.error (DbError.conflict m))
    ∧ ((db.tenants.any fun t => t.schema_name == s && t.status == "active") = true →
      ∃ m, activate_tenant db uid s = Except.error (DbError.conflict m))
    ∧ (∀ db2, suspend_tenant db uid s = Except.ok db2 →
      (db.tenants.any fun t => t.schema_name == s && t.status == "active") = true)
    ∧ (∀ db2, activate_tenant db uid s = Except.ok db2 →
      (db.tenants.any fun t => t.schema_name == s && t.status == "suspended") = true) := by
  refine ⟨?_, ?_, ?_, ?_⟩
  · intro h
    have hex : (db.tenants.any fun t => t.schema_name == s) = true := by
      rw [List.any_eq_true] at h ⊢
      obtain ⟨t, ht, hp⟩ := h
      rw [Bool.and_eq_true] at hp
      exact ⟨t, ht, hp.1⟩
    unfold suspend_tenant
    rw [hadmin, hex, h]
    simp only [Bool.not_true, Bool.false_eq_true, if_false, if_true]
    exact ⟨_, rfl⟩
  · intro h
    have hex : (db.tenants.any fun t => t.schema_name == s) = true := by
      rw [List.any_eq_true] at h ⊢
      obtain ⟨t, ht, hp⟩ := h
      rw [Bool.and_eq_true] at hp
      exact ⟨t, ht, hp.1⟩
    unfold activate_tenant
    rw [hadmin, hex, h]
    simp only [Bool.not_true, Bool.false_eq_true, if_false, if_true]
    exact ⟨_, rfl⟩
  · intro db2 h
    unfold suspend_tenant at h
    rw [hadmin] at h
    simp only [Bool.not_true, Bool.false_eq_true, if_false] at h
    by_cases hex : db.tenants.any fun t => t.schema_name == s
    · rw [hex] at h
      simp only [Bool.not_true, Bool.false_eq_true, if_false] at h
      by_cases hst : db.tenants.any fun t => t.schema_name == s && t.status == "suspended"
      · rw [hst] at h
        simp at h
      · rw [List.any_eq_true] at hex ⊢
        obtain ⟨t, ht, hp⟩ := hex
        refine ⟨t, ht, ?_⟩
        rw [Bool.and_eq_true]
        refine ⟨hp, ?_⟩
        rcases hwf t ht with ha | hs2
        · rw [ha]; rfl
        · exfalso
          exact hst (List.any_eq_true.mpr ⟨t, ht, by rw [Bool.and_eq_true]; exact ⟨hp, by rw [hs2]; rfl⟩⟩)
    · rw [Bool.not_eq_true] at hex
      rw [hex] at h
      simp at h
  · intro db2 h
    unfold activate_tenant at h
    rw [hadmin] at h
    simp only [Bool.not_true, Bool.false_eq_true, if_false] at h
    by_cases hex : db.tenants.any fun t => t.schema_name == s
    · rw [hex] at h
      simp only [Bool.not_true, Bool.false_eq_true, if_false] at h
      by_cases hst : db.tenants.any fun t => t.schema_name == s && t.status == "active"
      · rw [hst] at h
        simp at h
      · rw [List.any_eq_true] at hex ⊢
        obtain ⟨t, ht, hp⟩ := hex
        refine ⟨t, ht, ?_⟩
        rw [Bool.and_eq_true]
        refine ⟨hp, ?_⟩
        rcases hwf t ht with ha | hs2
        · exfalso
          exact hst (List.any_eq_true.mpr ⟨t, ht, by rw [Bool.and_eq_true]; exact ⟨hp, by rw [ha]; rfl⟩⟩)
        · rw [hs2]; rfl
    · rw [Bool.not_eq_true] at hex
      rw [hex] at h
      simp at h

/-- C5, witness: in `exDb`, tenant `acme` is already suspended and admin
7 suspending it again gets a conflict error. -/
theorem set_status_not_idempotent_witness :
    ∃ m, suspend_tenant exDb 7 "acme" = Except.error (DbError.conflict m) :=
  (set_status_not_idempotent exDb 7 "acme" (by decide) (by decide)).1 (by decide)

/-! ### C6 -/

/-- The state `grant_schema_access` produces from `exDb` when admin 7
regrants principal 9's `acme` access at level read at time 5: the
existing row (previously level write) is overwritten and one
GRANT_ACCESS audit entry is appended. -/
def exDbGranted : Db :=
  { exDb with
    user_schema_access := [⟨2, 9, "acme", "read", 7, 5, none⟩],
    admin_audit_log := [⟨7, "GRANT_ACCESS", "user_schema_access", some "2",
      [("target_user", "9"), ("schema", "acme"), ("level", "read")]⟩] }

/-- C6, counterexample. The claim says a successful grant's audit entry
records the before and after access level. In `exDb`, principal 9 holds
a write-level grant on `acme`; admin 7 successfully regrants at level
read, and the single emitted GRANT_ACCESS entry's details are exactly
{target_user: 9, schema: acme, level: read} — the prior level `write`
appears nowhere (the SQL at schema.sql lines 621-624 logs only the new
level; `revoke_schema_access` at lines 655-657 logs no level at all). -/
theorem grant_audit_lacks_before_level :
    (exDb.user_schema_access.map fun g => (g.user_id, g.tenant_schema, g.access_level))
      = [(9, "acme", "write")]
    ∧ grant_schema_access exDb 7 5 9 "acme" "read" none = Except.ok (exDbGranted, 2)
    ∧ exDbGranted.admin_audit_log =
        [⟨7, "GRANT_ACCESS", "user_schema_access", some "2",
          [("target_user", "9"), ("schema", "acme"), ("level", "read")]⟩] :=
  ⟨by decide, by rfl, by decide⟩

/-- C6, amended. Every successful grant appends exactly one GRANT_ACCESS
audit entry, whose details record the target user, the schema, and the
(new) access level only; every successful revoke appends exactly one
REVOKE_ACCESS entry, whose details record the target user and schema,
with no access level. No before-level is recorded by either. -/
theorem grant_revoke_audit_single_entry (db : Db) (uid now tu : Nat)
    (ts lvl : String) (texp : Option Nat) :
    (∀ db2 aid, grant_schema_access db uid now tu ts lvl texp = Except.ok (db2, aid) →
      db2.admin_audit_log = db.admin_audit_log ++
        [⟨uid, "GRANT_ACCESS", "user_schema_access", some (toString aid),
          [("target_user", toString tu), ("schema", ts), ("level", lvl)]⟩])
    ∧ (∀ db2, revoke_schema_access db uid tu ts = Except.ok db2 →
      db2.admin_audit_log = db.admin_audit_log ++
        [⟨uid, "REVOKE_ACCESS", "user_schema_access", none,
          [("target_user", toString tu), ("schema", ts)]⟩]) := by
  constructor
  · intro db2 aid h
    unfold grant_schema_access at h
    split at h
    · simp at h
    split at h
    · simp at h
    split at h
    · simp at h
    split at h
    · simp at h
    split at h
    · simp only [Except.ok.injEq, Prod.mk.injEq] at h
      obtain ⟨hdb2, haid⟩ := h
      subst hdb2
      subst haid
      rfl
    · simp only [Except.ok.injEq, Prod.mk.injEq] at h
      obtain ⟨hdb2, haid⟩ := h
      subst hdb2
      subst haid
      rfl
  · intro db2 h
    unfold revoke_schema_access at h
    split at h
    · simp at h
    · simp only [Except.ok.injEq] at h
      subst h
      rfl

/-- C6, witness for the amended theorem, at the concrete regrant of the
counterexample. -/
theorem grant_revoke_audit_single_entry_witness :
    exDbGranted.admin_audit_log = exDb.admin_audit_log ++
      [⟨7, "GRANT_ACCESS", "user_schema_access", some (toString 2),
        [("target_user", toString 9), ("schema", "acme"), ("level", "read")]⟩] :=
  (grant_revoke_audit_single_entry exDb 7 5 9 "acme" "read" none).1
    exDbGranted 2 (by rfl)

/-! ### C7 -/

/-- An expired grant fails the `expires_at > NOW()` test. -/
theorem grant_unexpired_of_past (now t : Nat) (g : SchemaAccess)
    (hexp : g.expires_at = some t) (hpast : t < now) :
    grant_unexpired now g = false := by
  unfold grant_unexpired
  rw [hexp]
  exact decide_eq_false (Nat.not_lt.mpr (Nat.le_of_lt hpast))

/-- C7. A grant whose expiry lies strictly in the past influences neither
`has_schema_access` nor `get_accessible_schemas`: removing the row from
the grants table leaves both results unchanged, for every principal,
schema and required level. -/
theorem expired_grant_like_absent (db : Db) (uid now : Nat) (s lvl : String)
    (g : SchemaAccess) (l1 l2 : List SchemaAccess) (t : Nat)
    (hsplit : db.user_schema_access = l1 ++ g :: l2)
    (hexp : g.expires_at = some t) (hpast : t < now) :
    has_schema_access db uid now s lvl
      = has_schema_access { db with user_schema_access := l1 ++ l2 } uid now s lvl
    ∧ get_accessible_schemas db uid now
      = get_accessible_schemas { db with user_schema_access := l1 ++ l2 } uid now := by
  have hgu : grant_unexpired now g = false := grant_unexpired_of_past now t g hexp hpast
  constructor
  · simp only [has_schema_access, is_admin, hsplit, List.any_append, List.any_cons,
      hgu, Bool.and_false, Bool.false_and, Bool.false_or]
  · simp only [get_accessible_schemas, is_admin]
    by_cases hadm : db.admin_users.any fun a => a.id == uid && a.is_active
    · simp only [hadm, if_true]
    · rw [Bool.not_eq_true] at hadm
      simp only [hadm, Bool.false_eq_true, if_false, hsplit, List.filter_append,
        List.filter_cons, hgu, Bool.and_false, List.map_append]

/-- C7, witness: in `exDb7`, principal 9's grant on `acme` expired at
time 5 and the clock is at 10; both read-offs agree with the state with
the grant row deleted. -/
def exDb7 : Db :=
  { exDb with user_schema_access := [⟨2, 9, "acme", "write", 7, 0, some 5⟩] }

/-- C7, witness theorem: the equivalence at the concrete expired grant of
`exDb7`. -/
theorem expired_grant_like_absent_witness :
    has_schema_access exDb7 9 10 "acme" "read"
      = has_schema_access { exDb7 with user_schema_access := [] ++ [] } 9 10 "acme" "read"
    ∧ get_accessible_schemas exDb7 9 10
      = get_accessible_schemas { exDb7 with user_schema_access := [] ++ [] } 9 10 :=
  expired_grant_like_absent exDb7 9 10 "acme" "read"
    ⟨2, 9, "acme", "write", 7, 0, some 5⟩ [] [] 5 (by rfl) (by rfl) (by decide)

/-! ### C8 -/

/-- C8. `revoke_admin` aimed at the caller's own id fails with a
permission error in every state, whatever the caller's role: a
non-super_admin caller hits the super-admin gate, a super_admin caller
hits the self-protection check `target_user_id = auth.uid()` (schema.sql
lines 862-864). Either way the result is `.error`, so no admin_users row
is touched. -/
theorem revoke_admin_self_fails (db : Db) (uid : Nat) :
    ∃ m, revoke_admin db uid uid = Except.error (DbError.permission m) := by
  unfold revoke_admin
  by_cases hsa : is_super_admin db uid
  · rw [hsa]
    simp only [Bool.not_true, Bool.false_eq_true, if_false, beq_self_eq_true, if_true]
    exact ⟨_, rfl⟩
  · rw [Bool.not_eq_true] at hsa
    rw [hsa]
    simp only [Bool.not_false, if_true]
    exact ⟨_, rfl⟩

/-- C8, witness: even super_admin 8 cannot revoke itself in `exDb`. -/
theorem revoke_admin_self_fails_witness :
    ∃ m, revoke_admin exDb 8 8 = Except.error (DbError.permission m) :=
  revoke_admin_self_fails exDb 8

/-! ### C9 -/

/-- C9. The part_014 `delete_tenant_schema` refuses every name on its
protected list (public, auth, storage, graphql, realtime,
supabase_functions, extensions): the call errors for every caller, and
for a super_admin caller specifically with the protected-schema error —
raised before the audit insert and the deletions, so the audit log,
grants and tenant records of the aborted transaction are unchanged. -/
theorem delete_p14_protected_refused (db : Db) (uid : Nat) (s : String)
    (hs : s ∈ protected_schemas) :
    (∃ e, delete_tenant_schema_p14 db uid s = Except.error e)
    ∧ (is_super_admin db uid = true →
      ∃ m, delete_tenant_schema_p14 db uid s = Except.error (DbError.validation m)) := by
  have hc : protected_schemas.contains s = true := List.elem_eq_true_of_mem hs
  by_cases hsa : is_super_admin db uid
  · have hval : ∃ m, delete_tenant_schema_p14 db uid s =
        Except.error (DbError.validation m) := by
      unfold delete_tenant_schema_p14
      rw [hsa, hc]
      simp only [Bool.not_true, Bool.false_eq_true, if_false, if_true]
      exact ⟨_, rfl⟩
    exact ⟨⟨_, hval.choose_spec⟩, fun _ => hval⟩
  · rw [Bool.not_eq_true] at hsa
    constructor
    · unfold delete_tenant_schema_p14
      rw [hsa]
      simp only [Bool.not_false, if_true]
      exact ⟨_, rfl⟩
    · intro h
      rw [h] at hsa
      cases hsa

/-- C9, witness: super_admin 8 cannot delete `public` in `exDb`. -/
theorem delete_p14_protected_refused_witness :
    ∃ m, delete_tenant_schema_p14 exDb 8 "public" =
      Except.error (DbError.validation m) :=
  (delete_p14_protected_refused exDb 8 "public" (by decide)).2 (by decide)

/-! ### C10 -/

/-- C10. `promote_to_admin` validates the role argument against
{admin, viewer}: a super_admin caller passing any other role (including
"super_admin") gets the validation error, no caller ever gets `.ok` with
such a role, and on every success each admin_users row with role
super_admin in the output state already occurs, unchanged, in the input
state — the procedure never creates or produces a super_admin role. -/
theorem promote_to_admin_never_super (db : Db) (uid tu : Nat) (r : String) :
    (is_super_admin db uid = true → ¬(r = "admin" ∨ r = "viewer") →
      ∃ m, promote_to_admin db uid tu r = Except.error (DbError.validation m))
    ∧ (¬(r = "admin" ∨ r = "viewer") →
      ∀ db2, promote_to_admin db uid tu r ≠ Except.ok db2)
    ∧ (∀ db2, promote_to_admin db uid tu r = Except.ok db2 →
      ∀ a ∈ db2.admin_users, a.role = "super_admin" → a ∈ db.admin_users) := by
  have hrole : ∀ (hr : ¬(r = "admin" ∨ r = "viewer")),
      (["admin", "viewer"].contains r) = false := by
    intro hr
    by_contra hcon
    rw [Bool.not_eq_false] at hcon
    have := List.mem_of_elem_eq_true hcon
    simp only [List.mem_cons, List.mem_singleton, List.not_mem_nil, or_false] at this
    exact hr this
  refine ⟨?_, ?_, ?_⟩
  · intro hsa hr
    unfold promote_to_admin
    rw [hsa, hrole hr]
    simp only [Bool.not_true, Bool.false_eq_true, if_false, Bool.not_false, if_true]
    exact ⟨_, rfl⟩
  · intro hr db2 h
    unfold promote_to_admin at h
    by_cases hsa : is_super_admin db uid
    · rw [hsa, hrole hr] at h
      simp at h
    · rw [Bool.not_eq_true] at hsa
      rw [hsa] at h
      simp at h
  · intro db2 h a hmem hrole2
    unfold promote_to_admin at h
    by_cases hsa : is_super_admin db uid
    · rw [hsa] at h
      simp only [Bool.not_true, Bool.false_eq_true, if_false] at h
      by_cases hval : (["admin", "viewer"].contains r) = true
      · rw [hval] at h
        simp only [Bool.not_true, Bool.false_eq_true, if_false, Except.ok.injEq] at h
        have hr : r ≠ "super_admin" := by
          have := List.mem_of_elem_eq_true hval
          simp only [List.mem_cons, List.mem_singleton, List.not_mem_nil, or_false] at this
          rcases this with h1 | h1 <;> rw [h1] <;> decide
        subst h
        simp only at hmem
        revert hmem
        split
        · intro hmem
          exact hmem
        · next u hfind =>
          split
          · intro hmem
            rw [List.mem_map] at hmem
            obtain ⟨b, hb, hba⟩ := hmem
            by_cases hid : b.id == tu
            · rw [if_pos hid] at hba
              rw [← hba] at hrole2
              exact absurd hrole2 hr
            · rw [if_neg hid] at hba
              rw [← hba]
              exact hb
          · intro hmem
            rw [List.mem_append] at hmem
            rcases hmem with hmem | hmem
            · exact hmem
            · simp only [List.mem_singleton] at hmem
              rw [hmem] at hrole2
              exact absurd hrole2 hr
      · rw [Bool.not_eq_true] at hval
        rw [hval] at h
        simp at h
    · rw [Bool.not_eq_true] at hsa
      rw [hsa] at h
      simp at h

/-- C10, witness: super_admin 8 asking for role "super_admin" gets the
validation error. -/
theorem promote_to_admin_never_super_witness :
    ∃ m, promote_to_admin exDb 8 9 "super_admin" =
      Except.error (DbError.validation m) :=
  (promote_to_admin_never_super exDb 8 9 "super_admin").1 (by decide) (by decide)

end TenantCore

